import Mathlib

/-!
Verification of the TGTG Telegram notification bot (src/TooGoodTooGo.py).

The Python program is shallowly embedded: ambient inputs (environment
variables, datetime.now(), the history file, the upstream fetch result, the
Telegram transport) become explicit parameters; raised exceptions become
explicit error values; the per-run observables (exit code, sent messages,
the on-disk history file) are returned.
-/

set_option autoImplicit false
set_option linter.unusedVariables false

namespace TGTG

/-- Models a listing identifier as read by entry['item'].get('item_id'):
a missing key yields Python None, so ids are optional strings, and the
history dict can hold None as a key. -/
abbrev ItemId := Option String

/-- Models the alert history: the JSON object stored in alert_history.json,
mapping item id to the instant of the last alert. Instants are integer
seconds (datetime values carry at least second precision, and only
differences and order matter to the program); values are carried directly as
instants, since datetime.isoformat/fromisoformat is a bijection between the
stored strings and the instants they denote. -/
abbrev History := List (ItemId × Int)

/-- Models history[item_id] lookup: the value bound to the first matching
key, if any. -/
def History.lookup? (h : History) (id : ItemId) : Option Int :=
  match h with
  | [] => none
  | (k, t) :: rest => if k = id then some t else History.lookup? rest id

/-- Models alert_history[item_id] = value on a Python dict: the binding for
item_id is overwritten and every other binding is unchanged. -/
def History.insert (h : History) (id : ItemId) (t : Int) : History :=
  (id, t) :: h.filter (fun p => decide (p.1 ≠ id))

/-- Models timedelta(hours=2), in seconds. -/
def twoHours : Int := 7200

/-- Models can_send_alert(item_id, history) from TooGoodTooGo.py lines 75-82.
datetime.now() is an ambient input of the Python function and is passed
explicitly as now. -/
def can_send_alert (item_id : ItemId) (history : History) (now : Int) : Bool :=
  match History.lookup? history item_id with
  | none => true
  | some last_alert_time => decide (now - last_alert_time ≥ twoHours)

/-!
Python string operations are modelled structurally over the character
list of a String, so that all of them evaluate inside the kernel on
concrete inputs.
-/

/-- Models the ASCII case mapping of Python str.lower (the program only
compares ASCII marker words). -/
def lowerChar (c : Char) : Char :=
  if 'A' ≤ c && c ≤ 'Z' then Char.ofNat (c.toNat + 32) else c

/-- Models Python str.lower. -/
def pyLower (s : String) : String :=
  ⟨s.data.map lowerChar⟩

/-- Models the Python substring test (needle in haystack): true for the
empty needle, otherwise true iff the needle occurs contiguously in the
haystack. -/
def pyIn (needle haystack : String) : Bool :=
  go haystack.data
where
  go : List Char → Bool
    | [] => needle.data.isEmpty
    | c :: rest => needle.data.isPrefixOf (c :: rest) || go rest

/-- Models Python str.startswith. -/
def pyStartsWith (s pre : String) : Bool :=
  pre.data.isPrefixOf s.data

/-- Models Python str.endswith. -/
def pyEndsWith (s suf : String) : Bool :=
  suf.data.isSuffixOf s.data

/-- Models the Python slice s[:-1]. -/
def pyDropLast (s : String) : String :=
  ⟨s.data.dropLast⟩

/-- Fuel-driven worker for str.replace: replaces non-overlapping
occurrences of old left to right. The fuel starts at the haystack length,
which bounds the number of steps for the non-empty old the program uses. -/
def replaceFuel (old new : List Char) : Nat → List Char → List Char
  | 0, l => l
  | _ + 1, [] => []
  | fuel + 1, c :: rest =>
    if old.isPrefixOf (c :: rest) && !old.isEmpty then
      new ++ replaceFuel old new fuel ((c :: rest).drop old.length)
    else
      c :: replaceFuel old new fuel rest

/-- Models Python str.replace for a non-empty pattern (the program only
replaces the literal Location marker). -/
def pyReplace (s old new : String) : String :=
  ⟨replaceFuel old.data new.data s.data.length s.data⟩

/-- Fuel-driven worker for str.split(sep): acc holds the reversed chars of
the current field. -/
def splitFuel (sep : List Char) : Nat → List Char → List Char → List (List Char)
  | 0, l, acc => [acc.reverse ++ l]
  | _ + 1, [], acc => [acc.reverse]
  | fuel + 1, c :: rest, acc =>
    if sep.isPrefixOf (c :: rest) && !sep.isEmpty then
      acc.reverse :: splitFuel sep fuel ((c :: rest).drop sep.length) []
    else
      splitFuel sep fuel rest (c :: acc)

/-- Models Python str.split(sep) for a non-empty separator. -/
def pySplit (s sep : String) : List String :=
  (splitFuel sep.data (s.data.length + 1) s.data []).map (fun cs => ⟨cs⟩)

/-- Models the auth_error_indicators list of check_auth_error. -/
def auth_error_indicators : List String := ["401", "UNAUTHORIZED", "auth", "token"]

/-- Models check_auth_error (lines 122-125): case-insensitive substring
match of any indicator against the error text. -/
def check_auth_error (error_str : String) : Bool :=
  auth_error_indicators.any (fun indicator => pyIn (pyLower indicator) (pyLower error_str))

/-- Models the Python exception values the program distinguishes:
TGTGAuthError (a subclass of TGTGError), any other TGTGError, and any other
Exception (TypeError, ValueError, NameError, KeyError, ...), each carrying
its message text. -/
inductive PyErr where
  | tgtgAuth (msg : String)
  | tgtg (msg : String)
  | other (msg : String)
deriving DecidableEq, Repr

/-- Models isinstance(e, TGTGAuthError). -/
def PyErr.isTGTGAuthError : PyErr → Bool
  | .tgtgAuth _ => true
  | _ => false

/-- Models isinstance(e, TGTGError); TGTGAuthError is a subclass of
TGTGError. -/
def PyErr.isTGTGError : PyErr → Bool
  | .tgtgAuth _ => true
  | .tgtg _ => true
  | .other _ => false

/-- Message text carried by an error value. -/
def PyErr.msgOf : PyErr → String
  | .tgtgAuth m => m
  | .tgtg m => m
  | .other m => m

/-- Observable message deliveries on the Telegram transport. -/
inductive SendEvent where
  | text (chat_id message : String)
  | location (chat_id : String) (latitude longitude : Rat)
deriving DecidableEq, Repr

/-- Models the Telegram transport collaborator: whether bot.send_message
and bot.send_location succeed when attempted. -/
structure Transport where
  textOk : Bool
  locOk : Bool
deriving DecidableEq, Repr

/-- Numeric value of a list of decimal digit characters. -/
def digitsVal (cs : List Char) : Nat :=
  cs.foldl (fun n c => n * 10 + (c.toNat - 48)) 0

/-- Models Python float() on the decimal-literal fragment it accepts
(optional sign, digits with an optional fractional part, at least one
digit): exactly the forms str() produces for the finite floats this program
handles. none models the ValueError raised on anything else, in particular
on the text None. -/
def pyFloat? (s : String) : Option Rat :=
  let cs := s.data
  let (neg, body) :=
    match cs with
    | '-' :: rest => (true, rest)
    | '+' :: rest => (false, rest)
    | _ => (false, cs)
  let intPart := body.takeWhile Char.isDigit
  let rest := body.drop intPart.length
  let mk : Rat → Option Rat := fun v => some (if neg then -v else v)
  match rest with
  | [] => if intPart.isEmpty then none else mk (digitsVal intPart)
  | '.' :: fracPart =>
    if fracPart.all Char.isDigit && !(intPart.isEmpty && fracPart.isEmpty) then
      mk ((digitsVal intPart : Rat) + (digitsVal fracPart : Rat) / (10 : Rat) ^ fracPart.length)
    else none
  | _ => none

/-- Models str(v) for an optional value already carried in its string
rendering: str(None) is the text None. -/
def pyStr : Option String → String
  | none => "None"
  | some s => s

/-- Models send_messages (lines 84-91): the text message is attempted
first and the location second; a failing send delivers nothing further and
raises TGTGError. Returns the delivered messages and the error, if any. -/
def send_messages (transport : Transport) (chat_id text_message : String)
    (latitude longitude : Rat) : List SendEvent × Option PyErr :=
  if transport.textOk then
    if transport.locOk then
      ([.text chat_id text_message, .location chat_id latitude longitude], none)
    else
      ([.text chat_id text_message], some (.tgtg "Failed to send Telegram message"))
  else
    ([], some (.tgtg "Failed to send Telegram message"))

/-- Models the line loop of run_bot (lines 98-104): a line starting with
the Location marker has the marker text removed, is split on commas and
float-parsed into stored_location (a parse failure raises, in Python
evaluation order); every other line accumulates into the text message. -/
def parse_lines (lines : List String) (message_text : List String)
    (stored_location : Option (Rat × Rat)) :
    Except PyErr (List String × Option (Rat × Rat)) :=
  match lines with
  | [] => .ok (message_text, stored_location)
  | line :: rest =>
    if pyStartsWith line "Location:" then
      let coordinates := pySplit (pyReplace line "Location: " "") ","
      match coordinates.get? 0 with
      | none => .error (.other "IndexError: list index out of range")
      | some c0 =>
        match pyFloat? c0 with
        | none => .error (.other "ValueError: could not convert string to float")
        | some lat =>
          match coordinates.get? 1 with
          | none => .error (.other "IndexError: list index out of range")
          | some c1 =>
            match pyFloat? c1 with
            | none => .error (.other "ValueError: could not convert string to float")
            | some lng => parse_lines rest message_text (some (lat, lng))
    else
      parse_lines rest (message_text ++ [line]) stored_location

/-- Models the whole message-list parse of run_bot, started from the empty
text and no stored location. -/
def parse_messages (messages : List String) :
    Except PyErr (List String × Option (Rat × Rat)) :=
  parse_lines messages [] none

/-- Models the newline join of the accumulated text lines (line 106). -/
def joinLines (lines : List String) : String :=
  String.intercalate "\n" lines

/-- Models run_bot (lines 93-120): parses the message lines, then performs
the sends only when a location was stored; any error is wrapped into a
TGTGError by the enclosing except clause. Returns the delivered messages
and the error, if any. The api_key only feeds the Application builder,
which is assumed to construct. -/
def run_bot (transport : Transport) (messages : List String)
    (chat_id api_key : String) : List SendEvent × Option PyErr :=
  match parse_messages messages with
  | .error e => ([], some (.tgtg ("Bot execution failed: " ++ e.msgOf)))
  | .ok (message_text, stored_location) =>
    match stored_location with
    | none => ([], none)
    | some (lat, lng) =>
      let (events, err?) :=
        send_messages transport chat_id (joinLines message_text) lat lng
      match err? with
      | none => (events, none)
      | some e => (events, some (.tgtg ("Bot execution failed: " ++ e.msgOf)))

/-- Models the location dict inside pickup_location: each coordinate key is
either absent (so .get yields Python None) or present, with the value
carried as the string str() renders it to. -/
structure LocDict where
  latitude : Option String
  longitude : Option String
deriving DecidableEq, Repr

/-- Models the messages list built at lines 182-187; str(None) renders an
absent coordinate as the text None. -/
def build_messages (display_name readable_start readable_end : String)
    (location : LocDict) : List String :=
  ["",
   "Shop: " ++ display_name,
   "Pickup time: " ++ readable_start ++ "/" ++ readable_end,
   "Location: " ++ pyStr location.latitude ++ "," ++ pyStr location.longitude]

/-- Models the result of datetime.strptime with format %Y-%m-%dT%H:%M:%SZ,
made timezone-aware by replace(tzinfo=utc). -/
structure Dt where
  year : Nat
  month : Nat
  day : Nat
  hour : Nat
  minute : Nat
  second : Nat
deriving DecidableEq, Repr

/-- Parses a fixed-width all-digit field. -/
def natField? (s : String) (w : Nat) : Option Nat :=
  if s.data.length = w && s.data.all Char.isDigit then some (digitsVal s.data) else none

/-- Models datetime.strptime(s, "%Y-%m-%dT%H:%M:%SZ") (lines 175-176):
succeeds exactly on strings of that shape with in-range fields; anything
else raises ValueError, modelled as none. -/
def strptime_utc (s : String) : Option Dt :=
  match pySplit s "T" with
  | [datePart, timePartZ] =>
    match pySplit datePart "-" with
    | [y, m, d] =>
      if pyEndsWith timePartZ "Z" then
        match pySplit (pyDropLast timePartZ) ":" with
        | [hh, mm, ss] =>
          match natField? y 4, natField? m 2, natField? d 2,
                natField? hh 2, natField? mm 2, natField? ss 2 with
          | some yv, some mv, some dv, some hv, some minv, some sv =>
            if 1 ≤ mv && mv ≤ 12 && 1 ≤ dv && dv ≤ 31 && hv ≤ 23 && minv ≤ 59 && sv ≤ 61 then
              some ⟨yv, mv, dv, hv, minv, sv⟩
            else none
          | _, _, _, _, _, _ => none
        | _ => none
      else none
    | _ => none
  | _ => none

/-- Models entry['item']: a dict whose item_id key may be absent. -/
structure Item where
  item_id : Option String
deriving DecidableEq, Repr

/-- Models the pickup_interval dict: the start and end keys may be absent;
present values are the UTC timestamp strings. -/
structure Interval where
  start : Option String
  end_ : Option String
deriving DecidableEq, Repr

/-- Models the pickup_location dict. The Python guard
(pickup_location and 'location' in pickup_location) collapses an absent
dict, an empty (falsy) dict and a dict without the location key into the
same behavior, so only the presence of the location value matters. -/
structure PickupLocation where
  location : Option LocDict
deriving DecidableEq, Repr

/-- Models one ListingRecord as read at lines 162-166: every key may be
absent; entry['item'] raises KeyError when absent, the .get reads yield
Python None. -/
structure Entry where
  items_available : Option Int
  item : Option Item
  display_name : Option String
  pickup_interval : Option Interval
  pickup_location : Option PickupLocation
deriving DecidableEq, Repr

/-- Models the state of alert_history.json on disk: absent, present with
invalid JSON, or present with a stored mapping. -/
inductive HistFile where
  | missing
  | corrupt
  | stored (h : History)
deriving DecidableEq, Repr

/-- Models load_alert_history (lines 57-65): a missing file yields the
empty dict, invalid JSON raises TGTGError (the json.JSONDecodeError is
caught and wrapped), and a well-formed file yields the stored mapping. -/
def load_alert_history : HistFile → Except PyErr History
  | .missing => .ok []
  | .corrupt => .error (.tgtg "Failed to read alert history")
  | .stored h => .ok h

/-- Models save_alert_history (lines 67-73): overwrites the file with the
whole mapping, or raises TGTGError when the write fails; saveOk is the
ambient filesystem outcome. -/
def save_alert_history (saveOk : Bool) (history : History) (disk : HistFile) :
    HistFile × Option PyErr :=
  if saveOk then (.stored history, none)
  else (disk, some (.tgtg "Failed to save alert history"))

/-- Models Python truthiness of an optional environment string: None and
the empty string are falsy. -/
def pyTruthy : Option String → Bool
  | none => false
  | some s => !s.data.isEmpty

/-- Ambient inputs of one run of async_main: the client initialization
outcome, environment variables, the history file, the fetch result (ok with
the favorites list, or error with str(e)), the transport behavior, the
filesystem outcome for saves, the clock value datetime.now() yields, and
the pytz conversion plus strftime rendering of a UTC instant into the
target timezone (an external library, modelled as an arbitrary rendering
function). -/
structure Config where
  tgtgClientOk : Bool
  chat_id : Option String
  api_key : Option String
  historyFile : HistFile
  fetchResult : Except String (List Entry)
  transport : Transport
  saveOk : Bool
  now : Int
  formatLocal : Dt → String

/-- Mutable state of the processing loop in async_main together with the
observables accumulated so far: the in-memory history, the on-disk file,
the location local variable (none models the unbound state before any
listing with a pickup location was seen), and the delivered messages. -/
structure LoopState where
  alert_history : History
  disk : HistFile
  location : Option LocDict
  sends : List SendEvent

/-- Models the conditional assignment at lines 171-172: the location local
variable is reassigned only when this entry carries a location value, and
otherwise keeps whatever an earlier iteration left in it. -/
def assignLocation (st : LoopState) : Option PickupLocation → LoopState
  | some pl =>
    match pl.location with
    | some l => { st with location := some l }
    | none => st
  | none => st

/-- Models lines 189-192 for one actionable entry: run_bot delivers the
messages; on success the timestamp is recorded under the entry id and the
whole history is saved to disk. -/
def sendRecordSave (cfg : Config) (chat_id api_key : String) (st1 : LoopState)
    (item_id : ItemId) (messages : List String) : LoopState × Option PyErr :=
  match run_bot cfg.transport messages chat_id api_key with
  | (events, some e2) => ({ st1 with sends := st1.sends ++ events }, some e2)
  | (events, none) =>
    let st2 := { st1 with sends := st1.sends ++ events }
    let newHistory := History.insert st2.alert_history item_id cfg.now
    let st3 := { st2 with alert_history := newHistory }
    match save_alert_history cfg.saveOk newHistory st3.disk with
    | (disk2, serr?) => ({ st3 with disk := disk2 }, serr?)

/-- Models lines 175-192 for one actionable entry with a complete pickup
interval: strptime both bounds (ValueError on mismatch), format them in the
target timezone, build the messages list (TypeError when display_name is
Python None, NameError when the location local variable was never
assigned), then send, record and save. -/
def formatAndSend (cfg : Config) (chat_id api_key : String) (st1 : LoopState)
    (item_id : ItemId) (display_name? : Option String) (s e : String) :
    LoopState × Option PyErr :=
  match strptime_utc s with
  | none => (st1, some (.other "ValueError: time data does not match format"))
  | some start_utc =>
  match strptime_utc e with
  | none => (st1, some (.other "ValueError: time data does not match format"))
  | some end_utc =>
  match display_name? with
  | none => (st1, some (.other "TypeError: can only concatenate str"))
  | some display_name =>
  match st1.location with
  | none => (st1, some (.other "NameError: name location is not defined"))
  | some location =>
  sendRecordSave cfg chat_id api_key st1 item_id
    (build_messages display_name (cfg.formatLocal start_utc) (cfg.formatLocal end_utc) location)

/-- Models lines 174-192: nothing happens unless the pickup_interval dict
is present with both its start and end keys. -/
def processActionable (cfg : Config) (chat_id api_key : String) (st1 : LoopState)
    (item_id : ItemId) (display_name? : Option String) (itv? : Option Interval) :
    LoopState × Option PyErr :=
  match itv? with
  | none => (st1, none)
  | some itv =>
    match itv.start, itv.end_ with
    | some s, some e => formatAndSend cfg chat_id api_key st1 item_id display_name? s e
    | _, _ => (st1, none)

/-- Models the body of the per-entry try block (lines 161-194) with raised
exceptions as error values: the field reads, the availability and cooldown
test, then the conditional (leaky) location assignment and the actionable
path. The per-entry except clause is applied by processEntry. -/
def processEntryRaw (cfg : Config) (chat_id api_key : String) (st : LoopState)
    (entry : Entry) : LoopState × Option PyErr :=
  match entry.item with
  | none => (st, some (.other "KeyError: item"))
  | some item =>
  match entry.items_available with
  | none => (st, some (.other "TypeError: not supported between NoneType and int"))
  | some items_available =>
  if items_available > 0 && can_send_alert item.item_id st.alert_history cfg.now then
    processActionable cfg chat_id api_key (assignLocation st entry.pickup_location)
      item.item_id entry.display_name entry.pickup_interval
  else (st, none)

/-- Models the per-entry except clause (lines 195-197): any exception
raised while processing an entry is reraised as TGTGError. -/
def processEntry (cfg : Config) (chat_id api_key : String) (st : LoopState)
    (entry : Entry) : LoopState × Option PyErr :=
  match processEntryRaw cfg chat_id api_key st entry with
  | (st1, none) => (st1, none)
  | (st1, some e) => (st1, some (.tgtg ("Error processing entry: " ++ e.msgOf)))

/-- Models the for loop over favorites (lines 160-197): entries are
processed in snapshot order and the first error aborts the whole run. -/
def processEntries (cfg : Config) (chat_id api_key : String) (st : LoopState) :
    List Entry → LoopState × Option PyErr
  | [] => (st, none)
  | entry :: rest =>
    match processEntry cfg chat_id api_key st entry with
    | (st1, none) => processEntries cfg chat_id api_key st1 rest
    | (st1, some e) => (st1, some e)

/-- Models the body of async_main before its except clauses (lines
128-199): client initialization, the required environment variables, the
history load, the fetch with auth classification, then the processing loop.
Returns the final observable state and the raised error, if any. -/
def runMain (cfg : Config) : LoopState × Option PyErr :=
  let st0 : LoopState :=
    { alert_history := [], disk := cfg.historyFile, location := none, sends := [] }
  if !cfg.tgtgClientOk then
    (st0, some (.tgtg "TGTG client initialization failed"))
  else if !(pyTruthy cfg.chat_id && pyTruthy cfg.api_key) then
    (st0, some (.tgtg "Missing required environment variables: TELEGRAM_CHAT_ID or TELEGRAM_API_KEY"))
  else
    match load_alert_history cfg.historyFile with
    | .error e => (st0, some e)
    | .ok alert_history =>
      let st1 := { st0 with alert_history := alert_history }
      match cfg.fetchResult with
      | .error error_str =>
        if check_auth_error error_str then
          (st1, some (.tgtgAuth "TGTG authentication failed - invalid or expired tokens"))
        else
          (st1, some (.tgtg ("Failed to fetch favorites: " ++ error_str)))
      | .ok favorites =>
        processEntries cfg (cfg.chat_id.getD "") (cfg.api_key.getD "") st1 favorites

/-- Models async_main (lines 127-209): runs the body and translates the
raised exception through the ordered except clauses (TGTGAuthError first,
then TGTGError, then Exception) into the returned exit status. -/
def async_main (cfg : Config) : Nat :=
  match (runMain cfg).2 with
  | none => 0
  | some e =>
    if e.isTGTGAuthError then 1
    else if e.isTGTGError then 2
    else 3

/-- Models the __main__ block (lines 211-217): a crash in the hosting
machinery before the orchestration runs exits 4, otherwise the exit code
returned by async_main is passed to sys.exit. -/
def process_exit (cfg : Config) (runnerCrash : Bool) : Nat :=
  if runnerCrash then 4 else async_main cfg

/-- Initial loop state over an empty history and a missing history file. -/
def initState : LoopState :=
  { alert_history := [], disk := .missing, location := none, sends := [] }

/-- A fully populated favorite entry, used for concrete runs. -/
def sampleEntry : Entry :=
  { items_available := some 3,
    item := some { item_id := some "42" },
    display_name := some "MyShop",
    pickup_interval := some { start := some "2024-06-01T18:00:00Z",
                              end_ := some "2024-06-01T19:00:00Z" },
    pickup_location := some { location := some { latitude := some "51.0",
                                                 longitude := some "-114.0" } } }

/-- A baseline run configuration whose snapshot is the single sampleEntry. -/
def sampleConfig : Config :=
  { tgtgClientOk := true, chat_id := some "chat", api_key := some "key",
    historyFile := .missing,
    fetchResult := .ok [sampleEntry],
    transport := { textOk := true, locOk := true },
    saveOk := true, now := 1000,
    formatLocal := fun d => toString d.hour ++ ":" ++ toString d.minute }

/-- sampleEntry with the location dict half populated: only a latitude. -/
def entryHalfLocation : Entry :=
  { sampleEntry with
    pickup_location := some { location := some { latitude := some "51.0",
                                                 longitude := none } } }

/-- sampleEntry with the item_id key absent from entry['item']. -/
def entryMissingId : Entry :=
  { sampleEntry with item := some { item_id := none } }

/-- sampleEntry with the display_name key absent. -/
def entryMissingName : Entry :=
  { sampleEntry with display_name := none }

/-- sampleEntry with nothing available. -/
def entryZeroAvailable : Entry :=
  { sampleEntry with items_available := some 0 }

/-- sampleEntry carrying no pickup_location at all. -/
def entryNoLocation : Entry :=
  { sampleEntry with pickup_location := none }

/-- A loop state in which an earlier listing already assigned the location
local variable. -/
def stateWithLeftoverLocation : LoopState :=
  { initState with location := some { latitude := some "7", longitude := some "8" } }

/-- sampleConfig with a fetch failure mentioning a 401 status. -/
def cfgAuthFail : Config :=
  { sampleConfig with fetchResult := .error "HTTP 401 Unauthorized" }

/-- sampleConfig with a history file holding invalid JSON. -/
def cfgCorrupt : Config :=
  { sampleConfig with historyFile := .corrupt }

/-- C1: for every listing id, history and current time, can_send_alert is
true iff the id is absent from the history or now minus the recorded
last-alert time is at least 2 hours; the boundary at exactly 2 hours is
allowed, and at 2 hours minus one second it returns false. -/
theorem C1_cooldown_inclusive (item_id : ItemId) (history : History) (now : Int) :
    (can_send_alert item_id history now = true ↔
      History.lookup? history item_id = none ∨
        ∃ t, History.lookup? history item_id = some t ∧ now - t ≥ twoHours) ∧
    (∀ t : Int, can_send_alert item_id [(item_id, t)] (t + twoHours) = true ∧
      can_send_alert item_id [(item_id, t)] (t + twoHours - 1) = false) := by
  refine ⟨?_, fun t => ⟨?_, ?_⟩⟩
  · cases hl : History.lookup? history item_id with
    | none => simp [can_send_alert, hl]
    | some t => simp [can_send_alert, hl]
  · simp [can_send_alert, History.lookup?]
  · simp [can_send_alert, History.lookup?, twoHours]
    omega

@[simp] theorem assignLocation_alert_history (st : LoopState) (p : Option PickupLocation) :
    (assignLocation st p).alert_history = st.alert_history := by
  cases p with
  | none => rfl
  | some pl => cases hpl : pl.location <;> simp [assignLocation, hpl]

@[simp] theorem assignLocation_disk (st : LoopState) (p : Option PickupLocation) :
    (assignLocation st p).disk = st.disk := by
  cases p with
  | none => rfl
  | some pl => cases hpl : pl.location <;> simp [assignLocation, hpl]

@[simp] theorem assignLocation_sends (st : LoopState) (p : Option PickupLocation) :
    (assignLocation st p).sends = st.sends := by
  cases p with
  | none => rfl
  | some pl => cases hpl : pl.location <;> simp [assignLocation, hpl]

/-- The per-entry except clause keeps the state and the success of the
entry unchanged; it only rewraps the error. -/
theorem processEntry_raw_of_ok (cfg : Config) (chat_id api_key : String)
    (st st1 : LoopState) (entry : Entry)
    (hrun : processEntry cfg chat_id api_key st entry = (st1, none)) :
    processEntryRaw cfg chat_id api_key st entry = (st1, none) := by
  unfold processEntry at hrun
  rcases hq : processEntryRaw cfg chat_id api_key st entry with ⟨st', err?⟩
  rw [hq] at hrun
  cases err? with
  | none =>
    simp only [Prod.mk.injEq] at hrun
    rw [← hrun.1]
  | some e => simp at hrun

/-- A successful sendRecordSave recorded the id at the run clock and left
the whole updated mapping on disk. -/
theorem sendRecordSave_ok (cfg : Config) (chat_id api_key : String)
    (st1 st2 : LoopState) (item_id : ItemId) (messages : List String)
    (h : sendRecordSave cfg chat_id api_key st1 item_id messages = (st2, none)) :
    st2.alert_history = History.insert st1.alert_history item_id cfg.now ∧
    st2.disk = HistFile.stored st2.alert_history := by
  unfold sendRecordSave at h
  rcases hrb : run_bot cfg.transport messages chat_id api_key with ⟨events, rberr?⟩
  rw [hrb] at h
  cases rberr? with
  | some e2 => simp at h
  | none =>
    simp only [save_alert_history] at h
    cases hsave : cfg.saveOk with
    | false => rw [hsave] at h; simp at h
    | true =>
      rw [hsave] at h
      simp only [if_true, Prod.mk.injEq] at h
      rw [← h.1]
      exact ⟨rfl, rfl⟩

/-- A successful formatAndSend recorded the id at the run clock and left
the whole updated mapping on disk. -/
theorem formatAndSend_ok (cfg : Config) (chat_id api_key : String)
    (st1 st2 : LoopState) (item_id : ItemId) (display_name? : Option String)
    (s e : String)
    (h : formatAndSend cfg chat_id api_key st1 item_id display_name? s e = (st2, none)) :
    st2.alert_history = History.insert st1.alert_history item_id cfg.now ∧
    st2.disk = HistFile.stored st2.alert_history := by
  unfold formatAndSend at h
  cases hps : strptime_utc s with
  | none => rw [hps] at h; simp at h
  | some start_utc =>
  rw [hps] at h
  cases hpe : strptime_utc e with
  | none => rw [hpe] at h; simp at h
  | some end_utc =>
  rw [hpe] at h
  cases display_name? with
  | none => simp at h
  | some display_name =>
  cases hl : st1.location with
  | none => rw [hl] at h; simp at h
  | some location =>
  rw [hl] at h
  exact sendRecordSave_ok cfg chat_id api_key st1 st2 item_id _ h

/-- C2: a listing whose processing completes and delivers at least one
message has its timestamp recorded in the history (overwriting any prior
entry for that id) and the whole history persisted to disk, so that a
reload of the history file reflects the new timestamp, before the loop
moves to the next listing. -/
theorem C2_record_and_persist_before_next (cfg : Config) (chat_id api_key : String)
    (st st1 : LoopState) (entry : Entry)
    (hrun : processEntry cfg chat_id api_key st entry = (st1, none))
    (hnotified : st1.sends ≠ st.sends) :
    ∃ item, entry.item = some item ∧
      st1.alert_history = History.insert st.alert_history item.item_id cfg.now ∧
      History.lookup? st1.alert_history item.item_id = some cfg.now ∧
      st1.disk = HistFile.stored st1.alert_history ∧
      load_alert_history st1.disk = Except.ok st1.alert_history ∧
      ∀ rest, processEntries cfg chat_id api_key st (entry :: rest) =
        processEntries cfg chat_id api_key st1 rest := by
  have hloop : ∀ rest, processEntries cfg chat_id api_key st (entry :: rest) =
      processEntries cfg chat_id api_key st1 rest := by
    intro rest
    simp [processEntries, hrun]
  have hraw := processEntry_raw_of_ok cfg chat_id api_key st st1 entry hrun
  cases hitem : entry.item with
  | none => simp [processEntryRaw, hitem] at hraw
  | some item =>
  refine ⟨item, rfl, ?_⟩
  cases havail : entry.items_available with
  | none => simp [processEntryRaw, hitem, havail] at hraw
  | some n =>
  simp only [processEntryRaw, hitem, havail] at hraw
  cases hcond : (decide (n > 0) && can_send_alert item.item_id st.alert_history cfg.now) with
  | false =>
    rw [hcond] at hraw
    simp only [Bool.false_eq_true, if_false, Prod.mk.injEq] at hraw
    exact absurd (by rw [← hraw.1]) hnotified
  | true =>
  rw [hcond] at hraw
  simp only [if_true] at hraw
  cases hitv : entry.pickup_interval with
  | none =>
    rw [hitv] at hraw
    simp only [processActionable, Prod.mk.injEq] at hraw
    refine absurd ?_ hnotified
    rw [← hraw.1, assignLocation_sends]
  | some itv =>
  rw [hitv] at hraw
  simp only [processActionable] at hraw
  cases hstart : itv.start with
  | none =>
    rw [hstart] at hraw
    simp only [Prod.mk.injEq] at hraw
    refine absurd ?_ hnotified
    rw [← hraw.1, assignLocation_sends]
  | some s =>
  rw [hstart] at hraw
  cases hend : itv.end_ with
  | none =>
    rw [hend] at hraw
    simp only [Prod.mk.injEq] at hraw
    refine absurd ?_ hnotified
    rw [← hraw.1, assignLocation_sends]
  | some e =>
  rw [hend] at hraw
  have hmain := formatAndSend_ok cfg chat_id api_key
    (assignLocation st entry.pickup_location) st1 item.item_id entry.display_name s e hraw
  rw [assignLocation_alert_history] at hmain
  refine ⟨hmain.1, ?_, hmain.2, ?_, hloop⟩
  · rw [hmain.1]
    simp [History.insert, History.lookup?]
  · rw [hmain.2]
    rfl

/-- Witness for C2: the sample run processes sampleEntry, completes,
delivers messages, and the conclusion holds at it. -/
theorem C2_record_and_persist_before_next_witness :
    ∃ item, sampleEntry.item = some item ∧
      (processEntry sampleConfig "chat" "key" initState sampleEntry).1.alert_history =
        History.insert initState.alert_history item.item_id sampleConfig.now ∧
      History.lookup?
        (processEntry sampleConfig "chat" "key" initState sampleEntry).1.alert_history
        item.item_id = some sampleConfig.now ∧
      (processEntry sampleConfig "chat" "key" initState sampleEntry).1.disk =
        HistFile.stored
          (processEntry sampleConfig "chat" "key" initState sampleEntry).1.alert_history ∧
      load_alert_history (processEntry sampleConfig "chat" "key" initState sampleEntry).1.disk =
        Except.ok (processEntry sampleConfig "chat" "key" initState sampleEntry).1.alert_history ∧
      ∀ rest, processEntries sampleConfig "chat" "key" initState (sampleEntry :: rest) =
        processEntries sampleConfig "chat" "key"
          (processEntry sampleConfig "chat" "key" initState sampleEntry).1 rest :=
  C2_record_and_persist_before_next sampleConfig "chat" "key" initState
    (processEntry sampleConfig "chat" "key" initState sampleEntry).1 sampleEntry
    rfl (by decide)

/-- Counterexample to C3 as stated: with a transport that would deliver
both messages and a payload carrying only text, run_bot performs no send
at all, so the text portion is not sent when no coordinate pair is
present. -/
theorem C3_counterexample :
    run_bot { textOk := true, locOk := true } ["hello"] "chat" "key" = ([], none) := rfl

/-- C3 amended: the notifier performs sends only when a coordinate pair is
present in the payload; in that case the text portion is sent first and
the location second, a failure of the text send aborts the location send
(nothing is retried) and signals a delivery error, and a failure of the
location send also signals a delivery error; with no coordinate pair
nothing at all is sent - in particular not the text. -/
theorem C3_sends_only_with_location (transport : Transport)
    (messages : List String) (chat_id api_key : String)
    (lines : List String) (lat lng : Rat) :
    (parse_messages messages = .ok (lines, none) →
      run_bot transport messages chat_id api_key = ([], none)) ∧
    (parse_messages messages = .ok (lines, some (lat, lng)) →
      run_bot transport messages chat_id api_key =
        (if transport.textOk then
           if transport.locOk then
             ([.text chat_id (joinLines lines), .location chat_id lat lng], none)
           else
             ([.text chat_id (joinLines lines)],
               some (.tgtg "Bot execution failed: Failed to send Telegram message"))
         else
           ([], some (.tgtg "Bot execution failed: Failed to send Telegram message")))) := by
  constructor
  · intro hp
    simp [run_bot, hp]
  · intro hp
    rcases transport with ⟨tOk, lOk⟩
    cases tOk <;> cases lOk <;> simp [run_bot, hp, send_messages] <;> rfl

/-- Witness for C3 at concrete payloads: both implications discharge. -/
theorem C3_sends_only_with_location_witness :
    run_bot { textOk := true, locOk := true } ["hi"] "c" "k" = ([], none) ∧
    run_bot { textOk := false, locOk := true } ["hi", "Location: 1,2"] "c" "k" =
      ([], some (.tgtg "Bot execution failed: Failed to send Telegram message")) := by
  constructor
  · exact (C3_sends_only_with_location ⟨true, true⟩ ["hi"] "c" "k" ["hi"] 0 0).1 rfl
  · exact (C3_sends_only_with_location ⟨false, true⟩ ["hi", "Location: 1,2"] "c" "k"
      ["hi"] 1 2).2 rfl

/-- Counterexample to C4 as stated: a location dict carrying only a
latitude yields a payload whose location line pairs that latitude with the
text None, so the half-populated pair is present in the payload rather
than the location being treated as absent. -/
theorem C4_counterexample :
    "Location: 51.0,None" ∈
      build_messages "MyShop" "rs" "re" { latitude := some "51.0", longitude := none } := by
  simp [build_messages, pyStr]

/-- C4 amended: a half-populated location dict is not treated as absent.
The built payload always carries the literal pair with the missing
longitude rendered as None, and processing such an entry aborts with a
wrapped error (the float parse of None fails inside run_bot) instead of
notifying without a location: at the concrete half-populated entry nothing
is sent, nothing is recorded, the disk is untouched and the run errors. -/
theorem C4_half_location_not_absent :
    (∀ name rs re ls,
      "Location: " ++ ls ++ ",None" ∈
        build_messages name rs re { latitude := some ls, longitude := none }) ∧
    (processEntry sampleConfig "chat" "key" initState entryHalfLocation).1.sends = [] ∧
    (processEntry sampleConfig "chat" "key" initState entryHalfLocation).1.alert_history = [] ∧
    (processEntry sampleConfig "chat" "key" initState entryHalfLocation).1.disk =
      HistFile.missing ∧
    (∃ m, (processEntry sampleConfig "chat" "key" initState entryHalfLocation).2 =
      some (.tgtg m)) := by
  refine ⟨?_, rfl, rfl, rfl, ⟨_, rfl⟩⟩
  intro name rs re ls
  simp [build_messages, pyStr, String.append_assoc]

/-- C5: the exit status is exactly the table: completed run 0,
authentication-failure abort 1, any other TGTGError abort 2, unclassified
error 3, top-level crash before orchestration 4. -/
theorem C5_exit_status (cfg : Config) (runnerCrash : Bool) :
    process_exit cfg runnerCrash =
      if runnerCrash then 4
      else
        match (runMain cfg).2 with
        | none => 0
        | some (.tgtgAuth _) => 1
        | some (.tgtg _) => 2
        | some (.other _) => 3 := by
  unfold process_exit async_main
  cases runnerCrash with
  | true => rfl
  | false =>
    cases herr : (runMain cfg).2 with
    | none => simp
    | some e => cases e <;> simp [PyErr.isTGTGAuthError, PyErr.isTGTGError]

/-- C6: when the favorites fetch fails, the run aborts with exit status 1
exactly when check_auth_error matches the error text, that is, when one of
the markers 401, UNAUTHORIZED, auth, token occurs case-insensitively in
it; any other fetch failure aborts with the distinct status 2. -/
theorem C6_fetch_auth_classification (cfg : Config) (s : String) (h : History)
    (hclient : cfg.tgtgClientOk = true)
    (hchat : pyTruthy cfg.chat_id = true)
    (hkey : pyTruthy cfg.api_key = true)
    (hload : load_alert_history cfg.historyFile = .ok h)
    (hfetch : cfg.fetchResult = .error s) :
    (async_main cfg = if check_auth_error s then 1 else 2) ∧
    (check_auth_error s = true ↔
      ∃ indicator ∈ auth_error_indicators, pyIn (pyLower indicator) (pyLower s) = true) := by
  constructor
  · unfold async_main runMain
    rw [hclient, hchat, hkey, hload, hfetch]
    cases hca : check_auth_error s <;>
      simp [hca, PyErr.isTGTGAuthError, PyErr.isTGTGError]
  · simp [check_auth_error, List.any_eq_true]

/-- Witness for C6: a 401 fetch failure aborts the concrete run with
status 1. -/
theorem C6_fetch_auth_classification_witness : async_main cfgAuthFail = 1 :=
  (C6_fetch_auth_classification cfgAuthFail "HTTP 401 Unauthorized" [] rfl rfl rfl rfl rfl).1

/-- C7: loading the history store yields the empty mapping for a missing
file and the persisted mapping for a well-formed one, and a file of
invalid JSON deterministically signals the TGTGError standing for
HistoryCorrupt - an error the orchestrator handles by aborting the run
with exit status 2, not an unhandled raise and not a silent discard. -/
theorem C7_history_load (h : History) (cfg : Config) :
    load_alert_history HistFile.missing = .ok [] ∧
    load_alert_history (HistFile.stored h) = .ok h ∧
    (∃ m, load_alert_history HistFile.corrupt = .error (.tgtg m)) ∧
    (cfg.historyFile = .corrupt → cfg.tgtgClientOk = true →
      pyTruthy cfg.chat_id = true → pyTruthy cfg.api_key = true →
      async_main cfg = 2) := by
  refine ⟨rfl, rfl, ⟨_, rfl⟩, ?_⟩
  intro hcorrupt hclient hchat hkey
  unfold async_main runMain
  rw [hclient, hchat, hkey, hcorrupt]
  simp [load_alert_history, PyErr.isTGTGAuthError, PyErr.isTGTGError]

/-- Witness for C7: the concrete run over a corrupt history file exits
with 2. -/
theorem C7_history_load_witness : async_main cfgCorrupt = 2 :=
  (C7_history_load [] cfgCorrupt).2.2.2 rfl rfl rfl rfl

/-- Counterexample to C8 as stated: an entry whose item dict lacks item_id
is processed without any error being signalled, and the alert is recorded
under the null identifier. -/
theorem C8_counterexample :
    (processEntry sampleConfig "chat" "key" initState entryMissingId).2 = none ∧
    History.lookup?
      (processEntry sampleConfig "chat" "key" initState entryMissingId).1.alert_history
      none = some sampleConfig.now := by
  constructor <;> rfl

/-- C8 amended: neither required field is checked up front. A missing
identifier is never detected: processing proceeds and a successful
notification is recorded under the null identifier. A missing display
name fails only when the notification message for an actionable entry is
built, and the failure is the generic wrapped per-entry TGTGError (a
TypeError from concatenating None), not a distinct malformed-record
error. -/
theorem C8_missing_fields (cfg : Config) (chat_id api_key : String)
    (st : LoopState) (entry : Entry) (item : Item) (n : Int) (itv : Interval)
    (s e : String) (ds de : Dt)
    (hitem : entry.item = some item) (havail : entry.items_available = some n)
    (hn : 0 < n)
    (hcool : can_send_alert item.item_id st.alert_history cfg.now = true)
    (hitv : entry.pickup_interval = some itv)
    (hs : itv.start = some s) (he : itv.end_ = some e)
    (hds : strptime_utc s = some ds) (hde : strptime_utc e = some de)
    (hname : entry.display_name = none) :
    processEntry cfg chat_id api_key st entry =
      (assignLocation st entry.pickup_location,
        some (.tgtg "Error processing entry: TypeError: can only concatenate str")) ∧
    (processEntry cfg chat_id api_key st entry).1.sends = st.sends ∧
    (processEntry cfg chat_id api_key st entry).1.alert_history = st.alert_history ∧
    History.lookup?
      (processEntry sampleConfig "chat" "key" initState entryMissingId).1.alert_history
      none = some sampleConfig.now := by
  have hpe : processEntry cfg chat_id api_key st entry =
      (assignLocation st entry.pickup_location,
        some (.tgtg "Error processing entry: TypeError: can only concatenate str")) := by
    unfold processEntry processEntryRaw
    rw [hitem, havail, hitv]
    simp [processActionable, formatAndSend, hs, he, hds, hde, hname, hcool, hn,
      PyErr.msgOf]
  refine ⟨hpe, ?_, ?_, rfl⟩
  · rw [hpe, assignLocation_sends]
  · rw [hpe, assignLocation_alert_history]

/-- Witness for C8 at a concrete actionable entry lacking display_name. -/
theorem C8_missing_fields_witness :
    processEntry sampleConfig "chat" "key" initState entryMissingName =
      (assignLocation initState entryMissingName.pickup_location,
        some (.tgtg "Error processing entry: TypeError: can only concatenate str")) :=
  (C8_missing_fields sampleConfig "chat" "key" initState entryMissingName
    { item_id := some "42" } 3
    { start := some "2024-06-01T18:00:00Z", end_ := some "2024-06-01T19:00:00Z" }
    "2024-06-01T18:00:00Z" "2024-06-01T19:00:00Z"
    ⟨2024, 6, 1, 18, 0, 0⟩ ⟨2024, 6, 1, 19, 0, 0⟩
    rfl rfl (by decide) rfl rfl rfl rfl rfl rfl rfl).1

/-- C9: an entry with zero items available changes nothing: the loop state
after processing it is exactly the state before - no message is delivered
and the alert history and disk are untouched, whatever the other fields
hold. -/
theorem C9_zero_available (cfg : Config) (chat_id api_key : String)
    (st : LoopState) (entry : Entry)
    (hz : entry.items_available = some 0) :
    (processEntry cfg chat_id api_key st entry).1.sends = st.sends ∧
    (processEntry cfg chat_id api_key st entry).1.alert_history = st.alert_history ∧
    (processEntry cfg chat_id api_key st entry).1 = st := by
  have hst : (processEntry cfg chat_id api_key st entry).1 = st := by
    unfold processEntry processEntryRaw
    rw [hz]
    cases hitem : entry.item with
    | none => simp
    | some item => simp
  exact ⟨by rw [hst], by rw [hst], hst⟩

/-- Witness for C9 at the concrete zero-availability entry. -/
theorem C9_zero_available_witness :
    (processEntry sampleConfig "chat" "key" initState entryZeroAvailable).1.sends =
      initState.sends ∧
    (processEntry sampleConfig "chat" "key" initState entryZeroAvailable).1.alert_history =
      initState.alert_history ∧
    (processEntry sampleConfig "chat" "key" initState entryZeroAvailable).1 = initState :=
  C9_zero_available sampleConfig "chat" "key" initState entryZeroAvailable rfl

/-- C10: an actionable listing (items available, cooldown passed, complete
pickup interval) that carries no pickup_location is not treated as
location-free. The message is built from whatever the location variable
holds from an earlier listing of the same run; when no earlier listing
ever assigned it, processing raises the unbound-variable error (wrapped
into the per-entry TGTGError), which aborts the whole run without touching
the remaining entries. -/
theorem C10_leaky_location (cfg : Config) (chat_id api_key : String)
    (st : LoopState) (entry : Entry) (item : Item) (n : Int) (itv : Interval)
    (s e : String) (ds de : Dt) (display_name : String)
    (hitem : entry.item = some item) (havail : entry.items_available = some n)
    (hn : 0 < n)
    (hcool : can_send_alert item.item_id st.alert_history cfg.now = true)
    (hitv : entry.pickup_interval = some itv)
    (hs : itv.start = some s) (he : itv.end_ = some e)
    (hds : strptime_utc s = some ds) (hde : strptime_utc e = some de)
    (hname : entry.display_name = some display_name)
    (hploc : entry.pickup_location = none) :
    (st.location = none →
      processEntry cfg chat_id api_key st entry =
        (st, some (.tgtg "Error processing entry: NameError: name location is not defined")) ∧
      ∀ rest, processEntries cfg chat_id api_key st (entry :: rest) =
        (st, some (.tgtg "Error processing entry: NameError: name location is not defined"))) ∧
    (∀ loc, st.location = some loc →
      processEntryRaw cfg chat_id api_key st entry =
        sendRecordSave cfg chat_id api_key st item.item_id
          (build_messages display_name (cfg.formatLocal ds) (cfg.formatLocal de) loc)) := by
  constructor
  · intro hloc
    have hpe : processEntry cfg chat_id api_key st entry =
        (st, some (.tgtg "Error processing entry: NameError: name location is not defined")) := by
      unfold processEntry processEntryRaw
      rw [hitem, havail, hitv, hploc]
      simp [processActionable, formatAndSend, assignLocation, hs, he, hds, hde,
        hname, hcool, hn, hloc, PyErr.msgOf]
    refine ⟨hpe, fun rest => ?_⟩
    simp [processEntries, hpe]
  · intro loc hloc
    unfold processEntryRaw
    rw [hitem, havail, hitv, hploc]
    simp [processActionable, formatAndSend, assignLocation, hs, he, hds, hde,
      hname, hcool, hn, hloc]

/-- Witness for C10: the concrete no-location entry errors from the fresh
state and reuses the leftover coordinates from the richer state. -/
theorem C10_leaky_location_witness :
    (processEntry sampleConfig "chat" "key" initState entryNoLocation =
      (initState,
        some (.tgtg "Error processing entry: NameError: name location is not defined"))) ∧
    (processEntryRaw sampleConfig "chat" "key" stateWithLeftoverLocation entryNoLocation =
      sendRecordSave sampleConfig "chat" "key" stateWithLeftoverLocation (some "42")
        (build_messages "MyShop" (sampleConfig.formatLocal ⟨2024, 6, 1, 18, 0, 0⟩)
          (sampleConfig.formatLocal ⟨2024, 6, 1, 19, 0, 0⟩)
          { latitude := some "7", longitude := some "8" })) := by
  constructor
  · exact ((C10_leaky_location sampleConfig "chat" "key" initState entryNoLocation
      { item_id := some "42" } 3
      { start := some "2024-06-01T18:00:00Z", end_ := some "2024-06-01T19:00:00Z" }
      "2024-06-01T18:00:00Z" "2024-06-01T19:00:00Z"
      ⟨2024, 6, 1, 18, 0, 0⟩ ⟨2024, 6, 1, 19, 0, 0⟩ "MyShop"
      rfl rfl (by decide) rfl rfl rfl rfl rfl rfl rfl rfl).1 rfl).1
  · exact (C10_leaky_location sampleConfig "chat" "key" stateWithLeftoverLocation
      entryNoLocation
      { item_id := some "42" } 3
      { start := some "2024-06-01T18:00:00Z", end_ := some "2024-06-01T19:00:00Z" }
      "2024-06-01T18:00:00Z" "2024-06-01T19:00:00Z"
      ⟨2024, 6, 1, 18, 0, 0⟩ ⟨2024, 6, 1, 19, 0, 0⟩ "MyShop"
      rfl rfl (by decide) rfl rfl rfl rfl rfl rfl rfl rfl).2
      { latitude := some "7", longitude := some "8" } rfl

end TGTG
